import Mathlib

/-!
Verification of the refresh-token lifecycle engine of the mikoblog
repository: a shallow embedding of `db/repositories/refresh_token_repository.py`
(the SessionStore), `core/jwt.py` (the TokenCodec) and
`services/jwt_service.py` (the RotationEngine), together with proofs of the
spec's testable properties.

Timestamps are modelled as `Nat` (Unix seconds, UTC).  The persistent store is
a list of `RefreshToken` records in insertion order; SQLAlchemy's
`select ... where jti = ...` with a unique index is modelled by taking the
first record of the list whose `jti` matches, and `db.add` by appending.
-/

namespace Mikoblog

/-- A row of the `refresh_tokens` table, mirroring
`db/models/refresh_token.py`: `user_id` and `jti` are not null,
`rotated_from_jti`, `revoked_at`, `user_agent` and `ip` are nullable,
`issued_at` and `expires_at` are not-null UTC timestamps. -/
structure RefreshToken where
  user_id : Int
  jti : String
  issued_at : Nat
  expires_at : Nat
  rotated_from_jti : Option String := none
  revoked_at : Option Nat := none
  user_agent : Option String := none
  ip : Option String := none
deriving Repr, DecidableEq

/-- The relational store: the `refresh_tokens` rows in insertion order. -/
abbrev Store := List RefreshToken

/-- `refresh_token_repository.get_by_jti`: fetch the record with the given
`jti` (first match; the column carries a unique index). -/
def get_by_jti (s : Store) (jti : String) : Option RefreshToken :=
  s.find? (fun t => t.jti == jti)

/-- The per-record active condition used throughout the repository:
`revoked_at IS NULL AND expires_at > now`. -/
def recordActive (t : RefreshToken) (now : Nat) : Bool :=
  t.revoked_at.isNone && decide (now < t.expires_at)

/-- `refresh_token_repository.is_active`: a token is active when its record
exists, is not revoked, and is not expired (`expires_at <= at` is inactive). -/
def is_active (s : Store) (jti : String) (now : Nat) : Bool :=
  match get_by_jti s jti with
  | none => false
  | some t =>
    match t.revoked_at with
    | some _ => false
    | none => if t.expires_at ≤ now then false else true

/-- `refresh_token_repository.create`: insert a new record (revoked_at null)
and return it. -/
def create (s : Store) (user_id : Int) (jti : String)
    (issued_at expires_at : Nat) (rotated_from_jti : Option String)
    (user_agent ip : Option String) : Store × RefreshToken :=
  let token : RefreshToken :=
    { user_id := user_id, jti := jti, issued_at := issued_at,
      expires_at := expires_at, rotated_from_jti := rotated_from_jti,
      revoked_at := none, user_agent := user_agent, ip := ip }
  (s ++ [token], token)

/-- `refresh_token_repository.revoke_by_jti`: absent record returns `false`;
an already-revoked record is left unchanged and returns `true`; an unrevoked
record has `revoked_at` set and returns `true`. -/
def revoke_by_jti (s : Store) (jti : String) (revoked_at : Nat) :
    Store × Bool :=
  match s with
  | [] => ([], false)
  | t :: rest =>
    if t.jti == jti then
      match t.revoked_at with
      | some _ => (t :: rest, true)
      | none => ({ t with revoked_at := some revoked_at } :: rest, true)
    else
      let r := revoke_by_jti rest jti revoked_at
      (t :: r.1, r.2)

/-- `refresh_token_repository.revoke_all_for_user`: set `revoked_at` on every
record of the user whose `revoked_at` is null; return the count affected. -/
def revoke_all_for_user (s : Store) (user_id : Int) (revoked_at : Nat) :
    Store × Nat :=
  match s with
  | [] => ([], 0)
  | t :: rest =>
    let r := revoke_all_for_user rest user_id revoked_at
    if t.user_id == user_id && t.revoked_at.isNone then
      ({ t with revoked_at := some revoked_at } :: r.1, r.2 + 1)
    else
      (t :: r.1, r.2)

/-- The per-record update applied by `revoke_all_for_user`. -/
def revokeIfMine (user_id : Int) (revoked_at : Nat) (t : RefreshToken) :
    RefreshToken :=
  if t.user_id == user_id && t.revoked_at.isNone then
    { t with revoked_at := some revoked_at }
  else t

/-- The in-place mutation of the old record inside
`refresh_token_repository.rotate`: the first record with the old `jti` gets
`revoked_at := now`, but only when its `revoked_at` is currently null. -/
def revokeOldIfUnrevoked (s : Store) (old_jti : String) (now : Nat) : Store :=
  match s with
  | [] => []
  | t :: rest =>
    if t.jti == old_jti then
      (match t.revoked_at with
       | some _ => t
       | none => { t with revoked_at := some now }) :: rest
    else
      t :: revokeOldIfUnrevoked rest old_jti now

/-- `refresh_token_repository.rotate`: `None` when the old record is absent;
otherwise revoke the old record if it is unrevoked (with the current time),
insert a new record linked via `rotated_from_jti`, and return it. -/
def rotate (s : Store) (old_jti new_jti : String) (user_id : Int)
    (issued_at expires_at : Nat) (user_agent ip : Option String)
    (now : Nat) : Option (Store × RefreshToken) :=
  match get_by_jti s old_jti with
  | none => none
  | some _ =>
    let s1 := revokeOldIfUnrevoked s old_jti now
    let new_token : RefreshToken :=
      { user_id := user_id, jti := new_jti, issued_at := issued_at,
        expires_at := expires_at, rotated_from_jti := some old_jti,
        revoked_at := none, user_agent := user_agent, ip := ip }
    some (s1 ++ [new_token], new_token)

/-- The JWT claim set produced by `core/jwt.py`: `sub`, `iat`, `exp`, `jti`,
`typ`.  `sub`, `jti` and `typ` are `Option` because `decoded.get(...)` in the
service layer may find them absent on a foreign token. -/
structure Claims where
  sub : Option String
  iat : Nat
  exp : Nat
  jti : Option String
  typ : Option String
deriving Repr, DecidableEq

/-- A compact signed token.  `alg` is the header algorithm; `key` identifies
the keypair whose private half produced the signature, so signature
verification against a public key is modelled as equality of key identifiers. -/
structure Token where
  alg : String
  payload : Claims
  key : Nat
deriving Repr, DecidableEq

/-- The failure vocabulary of the engine.  `expired` is the HTTP 401 raised
on `jwt.ExpiredSignatureError`, `invalid` the HTTP 401 raised on
`jwt.InvalidTokenError` and the `AuthenticationError` on a missing `sub` or
`jti`, `wrongPurpose` the HTTP 401 raised by `validate_typ`, `notActive` the
`AuthenticationError` raised when `is_active` is false, `notFound` the one
raised when `rotate` returns `None`, and `invalidSubject` the one raised when
`int(sub)` fails. -/
inductive AuthError where
  | expired
  | invalid
  | wrongPurpose (expected : String)
  | notActive
  | notFound
  | invalidSubject
deriving Repr, DecidableEq

/-- The runtime configuration read by `core/jwt.py` and
`services/jwt_service.py`: the loaded keypair, `settings.security.algorithm`
(default "RS256"), `JWT_ACCESS_MINUTES` (default 15) and `JWT_REFRESH_DAYS`
(default 7). -/
structure AuthConfig where
  key : Nat
  algorithm : String := "RS256"
  access_minutes : Nat := 15
  refresh_days : Nat := 7
deriving Repr, DecidableEq

/-- The PyJWT call `jwt.decode(token, public_key, algorithms=["RS256"])` as
used by `decode_token`: a header algorithm other than RS256 raises
`InvalidAlgorithmError` and a bad signature `InvalidSignatureError` (both
subclasses of `InvalidTokenError`); an `exp` at or before the current time
raises `ExpiredSignatureError`; otherwise the payload is returned. -/
def jwtDecode (tok : Token) (public_key : Nat) (now : Nat) :
    Except AuthError Claims :=
  if tok.alg ≠ "RS256" then .error .invalid
  else if tok.key ≠ public_key then .error .invalid
  else if tok.payload.exp ≤ now then .error .expired
  else .ok tok.payload

/-- `core/jwt.py decode_token`: decode with the loaded public key,
restricting the accepted algorithms to exactly `["RS256"]`; PyJWT failures
map to the 401 errors `expired` and `invalid`. -/
def decode_token (cfg : AuthConfig) (tok : Token) (now : Nat) :
    Except AuthError Claims :=
  jwtDecode tok cfg.key now

/-- `core/jwt.py validate_typ`: raise 401 when the decoded `typ` claim
differs from the expected value (an absent claim also differs). -/
def validate_typ (decoded : Claims) (expected_typ : String) :
    Except AuthError Unit :=
  if decoded.typ ≠ some expected_typ then .error (.wrongPurpose expected_typ)
  else .ok ()

/-- `core/jwt.py encode_access_token`: claims `sub = str(user_id)`,
`iat = now`, `exp = now + access_minutes * 60`, the given `jti`,
`typ = "access"`, signed with the configured algorithm and private key. -/
def encode_access_token (cfg : AuthConfig) (user_id : Int) (jti : String)
    (now : Nat) : Token :=
  { alg := cfg.algorithm,
    payload :=
      { sub := some (toString user_id), iat := now,
        exp := now + cfg.access_minutes * 60, jti := some jti,
        typ := some "access" },
    key := cfg.key }

/-- `core/jwt.py encode_refresh_token`: same shape with
`exp = now + refresh_days` in days and `typ = "refresh"`. -/
def encode_refresh_token (cfg : AuthConfig) (user_id : Int) (jti : String)
    (now : Nat) : Token :=
  { alg := cfg.algorithm,
    payload :=
      { sub := some (toString user_id), iat := now,
        exp := now + cfg.refresh_days * 86400, jti := some jti,
        typ := some "refresh" },
    key := cfg.key }

/-- Digit run of Python `int(...)`: all characters must be decimal digits and
at least one must be present. -/
def digitsToNat (cs : List Char) (acc : Nat) : Option Nat :=
  match cs with
  | [] => some acc
  | c :: rest =>
    if c.isDigit then digitsToNat rest (acc * 10 + (c.toNat - 48))
    else none

/-- The Python built-in `int(s)` on the strings this engine meets: an
optional sign followed by at least one decimal digit parses, anything else
raises `ValueError` (modelled as `none`).  Surrounding whitespace, which
Python would also strip, is not modelled. -/
def pyInt (s : String) : Option Int :=
  match s.data with
  | [] => none
  | '-' :: cs =>
    match cs with
    | [] => none
    | _ => (digitsToNat cs 0).map (fun n => -(n : Int))
  | '+' :: cs =>
    match cs with
    | [] => none
    | _ => (digitsToNat cs 0).map (fun n => (n : Int))
  | cs => (digitsToNat cs 0).map (fun n => (n : Int))

/-- `services/jwt_service.py create_tokens_for_user` (the login path): insert
a refresh record with a fresh `jti` expiring `refresh_days` later, then
encode an access token (with its own fresh `jti`) and a refresh token bound
to the record's `jti`.  Returns (new store, access token, refresh token). -/
def create_tokens_for_user (cfg : AuthConfig) (s : Store) (user_id : Int)
    (now : Nat) (refresh_jti access_jti : String)
    (user_agent ip : Option String) : Store × Token × Token :=
  let r := create s user_id refresh_jti now (now + cfg.refresh_days * 86400)
      none user_agent ip
  (r.1, encode_access_token cfg user_id access_jti now,
   encode_refresh_token cfg user_id refresh_jti now)

/-- `services/jwt_service.py rotate_tokens` (the refresh path): decode the
presented refresh JWT, check `typ = "refresh"`, require non-empty `sub` and
`jti`, parse the subject, require `is_active(jti)`, rotate the record, and
issue a new access/refresh pair.  `new_jti` and `access_jti` stand for the
two `make_jti()` calls. -/
def rotate_tokens (cfg : AuthConfig) (s : Store) (refresh_jwt : Token)
    (now : Nat) (new_jti access_jti : String)
    (user_agent ip : Option String) :
    Except AuthError (Store × Token × Token) :=
  match decode_token cfg refresh_jwt now with
  | .error e => .error e
  | .ok decoded =>
    match validate_typ decoded "refresh" with
    | .error e => .error e
    | .ok _ =>
      match decoded.sub, decoded.jti with
      | some sub, some jti =>
        if sub = "" ∨ jti = "" then .error .invalid
        else
          match pyInt sub with
          | none => .error .invalidSubject
          | some user_id =>
            if is_active s jti now then
              match rotate s jti new_jti user_id now
                  (now + cfg.refresh_days * 86400) user_agent ip now with
              | none => .error .notFound
              | some (s1, _) =>
                .ok (s1, encode_access_token cfg user_id access_jti now,
                     encode_refresh_token cfg user_id new_jti now)
            else .error .notActive
      | _, _ => .error .invalid

/-- `services/jwt_service.py revoke_refresh_token` (the logout path): decode
the presented refresh JWT, check `typ = "refresh"`, require a non-empty
`jti`, then `revoke_by_jti` (whose boolean result is ignored). -/
def revoke_refresh_token (cfg : AuthConfig) (s : Store) (refresh_jwt : Token)
    (now : Nat) : Except AuthError Store :=
  match decode_token cfg refresh_jwt now with
  | .error e => .error e
  | .ok decoded =>
    match validate_typ decoded "refresh" with
    | .error e => .error e
    | .ok _ =>
      match decoded.jti with
      | none => .error .invalid
      | some jti =>
        if jti = "" then .error .invalid
        else .ok (revoke_by_jti s jti now).1

/-- `services/jwt_service.py revoke_all_user_tokens` (the logout-all path). -/
def revoke_all_user_tokens (s : Store) (user_id : Int) (now : Nat) : Store :=
  (revoke_all_for_user s user_id now).1

/-! ### Concrete instances used to evaluate the definitions -/

/-- A configuration with the default settings (`RS256`, 15 minutes, 7 days)
and keypair 0. -/
def cfg0 : AuthConfig := { key := 0 }

/-- A live refresh record for user 7, issued at 0, expiring a week later. -/
def rec0 : RefreshToken :=
  { user_id := 7, jti := "old", issued_at := 0, expires_at := 604800 }

/-- A store holding only `rec0`. -/
def store0 : Store := [rec0]

/-- `rec0` after being rotated out at time 100. -/
def rec0r : RefreshToken := { rec0 with revoked_at := some 100 }

/-- The successor record minted by rotating `rec0` at time 100. -/
def newrec : RefreshToken :=
  { user_id := 7, jti := "new", issued_at := 100, expires_at := 605000,
    rotated_from_jti := some "old" }

/-- The store after `rotate store0 "old" "new" ...` at time 100. -/
def store1 : Store := [rec0r, newrec]

/-- The refresh JWT that was issued together with `rec0`. -/
def tok0 : Token :=
  { alg := "RS256",
    payload := { sub := some "7", iat := 0, exp := 604800,
                 jti := some "old", typ := some "refresh" },
    key := 0 }

/-- A record that is already revoked (at time 50). -/
def recRevoked : RefreshToken :=
  { user_id := 1, jti := "t1", issued_at := 0, expires_at := 1000,
    revoked_at := some 50 }

/-- A well-signed refresh JWT that expired at time 10. -/
def tokExpired : Token :=
  { alg := "RS256",
    payload := { sub := some "1", iat := 0, exp := 10,
                 jti := some "j1", typ := some "refresh" },
    key := 0 }

/-- A token whose header declares the unsigned "none" algorithm. -/
def tokAlgNone : Token :=
  { alg := "none",
    payload := { sub := some "1", iat := 0, exp := 1000,
                 jti := some "j", typ := some "access" },
    key := 0 }

/-- A live record of user 7, used beside one of user 8. -/
def recA7 : RefreshToken :=
  { user_id := 7, jti := "a7", issued_at := 0, expires_at := 1000 }

/-- A live record of user 8. -/
def recB8 : RefreshToken :=
  { user_id := 8, jti := "b8", issued_at := 0, expires_at := 1000 }

/-- A store holding one record each for users 7 and 8. -/
def store67 : Store := [recA7, recB8]

/-! ### Supporting lemmas about the store operations -/

/-- Lookup in an appended store: the left part is searched first. -/
theorem get_by_jti_append (s l : Store) (j : String) :
    get_by_jti (s ++ l) j = (get_by_jti s j).or (get_by_jti l j) := by
  simp [get_by_jti, List.find?_append]

/-- A token whose first matching record is revoked (or absent) is inactive. -/
theorem is_active_eq_false (s : Store) (j : String) (t0 : Nat)
    (h : ∀ u, get_by_jti s j = some u → u.revoked_at.isSome = true) :
    is_active s j t0 = false := by
  cases hg : get_by_jti s j with
  | none => simp [is_active, hg]
  | some u =>
    have hu := h u hg
    cases hv : u.revoked_at with
    | none => rw [hv] at hu; simp at hu
    | some v => simp [is_active, hg, hv]

/-- `revokeOldIfUnrevoked` does not disturb lookups of a different `jti`. -/
theorem get_revokeOld_ne (s : Store) (oj : String) (now : Nat) (j : String)
    (hne : j ≠ oj) :
    get_by_jti (revokeOldIfUnrevoked s oj now) j = get_by_jti s j := by
  induction s with
  | nil => rfl
  | cons t rest ih =>
    by_cases hm : t.jti = oj
    · have h1 : (oj == j) = false := beq_eq_false_iff_ne.mpr (Ne.symm hne)
      have h2 : (t.jti == j) = false := by rw [hm]; exact h1
      cases hrv : t.revoked_at with
      | some v => simp [revokeOldIfUnrevoked, hm, hrv]
      | none =>
        simp [revokeOldIfUnrevoked, hm, hrv, get_by_jti, List.find?_cons,
          h1, h2]
    · simp [revokeOldIfUnrevoked, get_by_jti, hm] at ih ⊢
      by_cases hh : t.jti = j
      · simp [hh]
      · simp [hh, ih]

/-- After `revokeOldIfUnrevoked`, the first record carrying the old `jti`
(if the store had one) is found and is revoked. -/
theorem get_revokeOld_self (s : Store) (oj : String) (now : Nat)
    (t : RefreshToken) (h : get_by_jti s oj = some t) :
    ∃ u, get_by_jti (revokeOldIfUnrevoked s oj now) oj = some u ∧
      u.revoked_at.isSome = true := by
  induction s with
  | nil => simp [get_by_jti] at h
  | cons hd rest ih =>
    by_cases hm : hd.jti = oj
    · cases hrv : hd.revoked_at with
      | some v =>
        exact ⟨hd, by simp [revokeOldIfUnrevoked, get_by_jti, hm, hrv],
          by simp [hrv]⟩
      | none =>
        exact ⟨{ hd with revoked_at := some now },
          by simp [revokeOldIfUnrevoked, get_by_jti, hm, hrv], by simp⟩
    · have h2 : get_by_jti rest oj = some t := by
        simpa [get_by_jti, hm] using h
      obtain ⟨u, hu, hrev⟩ := ih h2
      exact ⟨u, by simpa [revokeOldIfUnrevoked, get_by_jti, hm] using hu, hrev⟩

/-- After a successful `rotate`, the old `jti` is inactive at every instant. -/
theorem rotate_old_inactive (s s1 : Store) (oj nj : String) (uid : Int)
    (ia ea : Nat) (ua ip : Option String) (now : Nat) (nt : RefreshToken)
    (h : rotate s oj nj uid ia ea ua ip now = some (s1, nt)) (t0 : Nat) :
    is_active s1 oj t0 = false := by
  cases hg : get_by_jti s oj with
  | none => simp [rotate, hg] at h
  | some t =>
    simp only [rotate, hg] at h
    obtain ⟨hs1, hnt⟩ := Prod.mk.injEq .. ▸ Option.some.injEq .. ▸ h
    obtain ⟨u, hu, hrev⟩ := get_revokeOld_self s oj now t hg
    apply is_active_eq_false
    intro w hw
    rw [← hs1, get_by_jti_append, hu] at hw
    simp only [Option.or_some] at hw
    cases hw
    exact hrev

/-- After a successful `rotate` with a fresh new `jti` the successor is
active at any instant before its expiry. -/
theorem rotate_new_active (s s1 : Store) (oj nj : String) (uid : Int)
    (ia ea : Nat) (ua ip : Option String) (now : Nat) (nt : RefreshToken)
    (h : rotate s oj nj uid ia ea ua ip now = some (s1, nt))
    (hfresh : get_by_jti s nj = none) (t0 : Nat) (ht : t0 < ea) :
    is_active s1 nj t0 = true := by
  cases hg : get_by_jti s oj with
  | none => simp [rotate, hg] at h
  | some t =>
    simp only [rotate, hg] at h
    obtain ⟨hs1, hnt⟩ := Prod.mk.injEq .. ▸ Option.some.injEq .. ▸ h
    have hne : nj ≠ oj := by
      intro hEq
      rw [hEq, hg] at hfresh
      cases hfresh
    have h2 : get_by_jti (revokeOldIfUnrevoked s oj now) nj = none := by
      rw [get_revokeOld_ne s oj now nj hne, hfresh]
    rw [← hs1]
    simp only [is_active]
    rw [get_by_jti_append, h2]
    simp [get_by_jti, List.find?, Nat.not_le.mpr ht]

/-- After `revoke_by_jti`, the first record carrying the `jti` (if any) is
revoked. -/
theorem get_revoke_by_jti_self (s : Store) (j : String) (now : Nat) :
    ∀ u, get_by_jti (revoke_by_jti s j now).1 j = some u →
      u.revoked_at.isSome = true := by
  induction s with
  | nil => intro u hu; simp [revoke_by_jti, get_by_jti] at hu
  | cons t rest ih =>
    intro u hu
    by_cases hm : t.jti = j
    · cases hrv : t.revoked_at with
      | some v =>
        simp [revoke_by_jti, hm, hrv, get_by_jti, List.find?_cons] at hu
        rw [← hu]
        simp [hrv]
      | none =>
        simp [revoke_by_jti, hm, hrv, get_by_jti, List.find?_cons] at hu
        rw [← hu]
        simp
    · have h2 : (t.jti == j) = false := beq_eq_false_iff_ne.mpr hm
      simp only [revoke_by_jti, hm, if_false, beq_iff_eq] at hu
      simp only [get_by_jti, List.find?_cons, h2, cond_false] at hu
      exact ih u hu

/-- Revoking an absent `jti` changes nothing and reports `false`. -/
theorem revoke_by_jti_absent (s : Store) (j : String) (now : Nat)
    (h : get_by_jti s j = none) : revoke_by_jti s j now = (s, false) := by
  induction s with
  | nil => rfl
  | cons t rest ih =>
    by_cases hm : t.jti = j
    · simp [get_by_jti, List.find?_cons, hm] at h
    · have h2 : (t.jti == j) = false := beq_eq_false_iff_ne.mpr hm
      have hrest : get_by_jti rest j = none := by
        simpa [get_by_jti, List.find?_cons, h2] using h
      simp [revoke_by_jti, hm, ih hrest]

/-- Revoking an existing `jti` reports `true`. -/
theorem revoke_by_jti_present (s : Store) (j : String) (now : Nat)
    (u : RefreshToken) (h : get_by_jti s j = some u) :
    (revoke_by_jti s j now).2 = true := by
  induction s with
  | nil => simp [get_by_jti] at h
  | cons t rest ih =>
    by_cases hm : t.jti = j
    · cases hrv : t.revoked_at with
      | some v => simp [revoke_by_jti, hm, hrv]
      | none => simp [revoke_by_jti, hm, hrv]
    · have h2 : (t.jti == j) = false := beq_eq_false_iff_ne.mpr hm
      have hrest : get_by_jti rest j = some u := by
        simpa [get_by_jti, List.find?_cons, h2] using h
      simp [revoke_by_jti, hm, ih hrest]

/-- Revoking an already-revoked `jti` changes nothing and reports `true`. -/
theorem revoke_by_jti_already_revoked (s : Store) (j : String) (now : Nat)
    (u : RefreshToken) (h : get_by_jti s j = some u)
    (hrev : u.revoked_at.isSome = true) :
    revoke_by_jti s j now = (s, true) := by
  induction s with
  | nil => simp [get_by_jti] at h
  | cons t rest ih =>
    by_cases hm : t.jti = j
    · have ht : t = u := by
        simpa [get_by_jti, List.find?_cons, hm] using h
      cases hrv : t.revoked_at with
      | some v => simp [revoke_by_jti, hm, hrv]
      | none => rw [← ht, hrv] at hrev; simp at hrev
    · have h2 : (t.jti == j) = false := beq_eq_false_iff_ne.mpr hm
      have hrest : get_by_jti rest j = some u := by
        simpa [get_by_jti, List.find?_cons, h2] using h
      simp [revoke_by_jti, hm, ih hrest]

/-- `revoke_all_for_user` is the pointwise update `revokeIfMine`. -/
theorem revoke_all_eq_map (s : Store) (uid : Int) (now : Nat) :
    (revoke_all_for_user s uid now).1 = s.map (revokeIfMine uid now) := by
  induction s with
  | nil => rfl
  | cons t rest ih =>
    by_cases hc : t.user_id == uid && t.revoked_at.isNone
    · simp [revoke_all_for_user, revokeIfMine, hc, ih]
    · simp [revoke_all_for_user, revokeIfMine, hc, ih]

/-- `revoke_by_jti` leaves every already-revoked record exactly in place. -/
theorem revoke_by_jti_preserves (s : Store) (j : String) (now : Nat)
    (i : Nat) (r : RefreshToken) (hr : s[i]? = some r) (ts : Nat)
    (hrev : r.revoked_at = some ts) :
    ((revoke_by_jti s j now).1)[i]? = some r := by
  induction s generalizing i with
  | nil => simp at hr
  | cons t rest ih =>
    by_cases hm : t.jti = j
    · cases hrv : t.revoked_at with
      | some v =>
        simpa [revoke_by_jti, hm, hrv] using hr
      | none =>
        cases i with
        | zero =>
          simp at hr
          rw [← hr, hrv] at hrev
          cases hrev
        | succ k =>
          simp at hr
          simpa [revoke_by_jti, hm, hrv] using hr
    · cases i with
      | zero => simpa [revoke_by_jti, hm] using hr
      | succ k =>
        simp at hr
        simpa [revoke_by_jti, hm] using ih k hr

/-- `revokeOldIfUnrevoked` leaves every already-revoked record in place. -/
theorem revokeOld_preserves (s : Store) (oj : String) (now : Nat)
    (i : Nat) (r : RefreshToken) (hr : s[i]? = some r) (ts : Nat)
    (hrev : r.revoked_at = some ts) :
    (revokeOldIfUnrevoked s oj now)[i]? = some r := by
  induction s generalizing i with
  | nil => simp at hr
  | cons t rest ih =>
    by_cases hm : t.jti = oj
    · cases hrv : t.revoked_at with
      | some v =>
        simpa [revokeOldIfUnrevoked, hm, hrv] using hr
      | none =>
        cases i with
        | zero =>
          simp at hr
          rw [← hr, hrv] at hrev
          cases hrev
        | succ k =>
          simp at hr
          simpa [revokeOldIfUnrevoked, hm, hrv] using hr
    · cases i with
      | zero => simpa [revokeOldIfUnrevoked, hm] using hr
      | succ k =>
        simp at hr
        simpa [revokeOldIfUnrevoked, hm] using ih k hr

/-- `revokeOldIfUnrevoked` keeps the store's length. -/
theorem revokeOld_length (s : Store) (oj : String) (now : Nat) :
    (revokeOldIfUnrevoked s oj now).length = s.length := by
  induction s with
  | nil => rfl
  | cons t rest ih =>
    by_cases hm : t.jti = oj
    · cases hrv : t.revoked_at with
      | some v => simp [revokeOldIfUnrevoked, hm, hrv]
      | none => simp [revokeOldIfUnrevoked, hm, hrv]
    · simp [revokeOldIfUnrevoked, hm, ih]

/-! ### The claims -/

/-- C2: evaluating the store-level `rotate` on a state whose old record is
already revoked (`recRevoked`, revoked at 50): instead of failing with a
not-active error, it silently succeeds, leaving the predecessor unchanged
and returning a successor record linked to it via `rotated_from_jti`. -/
theorem rotate_on_revoked_succeeds :
    rotate [recRevoked] "t1" "t2" 1 60 7000 none none 60 =
      some ([recRevoked,
        { user_id := 1, jti := "t2", issued_at := 60, expires_at := 7000,
          rotated_from_jti := some "t1" }],
        { user_id := 1, jti := "t2", issued_at := 60, expires_at := 7000,
          rotated_from_jti := some "t1" }) := by rfl

/-- C4 (counterexample): revoking the already-revoked record `recRevoked`
reports `true`, not the `false` the claim states, while indeed leaving the
store unchanged. -/
theorem revoke_already_revoked_reports_true :
    (revoke_by_jti [recRevoked] "t1" 70).2 = true ∧
    recRevoked.revoked_at = some 50 ∧
    (revoke_by_jti [recRevoked] "t1" 70).1 = [recRevoked] :=
  ⟨rfl, rfl, rfl⟩

/-- C4 (amended): `revoke_by_jti` never errors; it returns `false` exactly
when the record is absent and `true` whenever it exists; an already-revoked
record leaves the whole store (and so the revocation timestamp) unchanged;
and afterwards the token is inactive at every instant. -/
theorem revoke_report (s : Store) (j : String) (now : Nat) :
    (get_by_jti s j = none → revoke_by_jti s j now = (s, false)) ∧
    (∀ u, get_by_jti s j = some u → (revoke_by_jti s j now).2 = true) ∧
    (∀ u, get_by_jti s j = some u → u.revoked_at.isSome = true →
      revoke_by_jti s j now = (s, true)) ∧
    (∀ t0, is_active (revoke_by_jti s j now).1 j t0 = false) :=
  ⟨fun h => revoke_by_jti_absent s j now h,
   fun u h => revoke_by_jti_present s j now u h,
   fun u h hrev => revoke_by_jti_already_revoked s j now u h hrev,
   fun t0 => is_active_eq_false _ _ t0 (get_revoke_by_jti_self s j now)⟩

/-- C6: after `revoke_all_user_tokens` every record of the subject that was
active immediately before is inactive immediately after, and every record of
any other subject is unchanged in all fields (same position, same record). -/
theorem logout_all_complete (s : Store) (uid : Int) (now : Nat) (i : Nat)
    (r : RefreshToken) (hr : s[i]? = some r) :
    (r.user_id ≠ uid → (revoke_all_user_tokens s uid now)[i]? = some r) ∧
    (r.user_id = uid → ∀ t0, recordActive r t0 = true →
      ∃ r1, (revoke_all_user_tokens s uid now)[i]? = some r1 ∧
        recordActive r1 t0 = false) := by
  have hmap : (revoke_all_user_tokens s uid now)[i]? =
      some (revokeIfMine uid now r) := by
    simp [revoke_all_user_tokens, revoke_all_eq_map, List.getElem?_map, hr]
  constructor
  · intro hne
    rw [hmap]
    simp [revokeIfMine, hne]
  · intro heq t0 hact
    refine ⟨revokeIfMine uid now r, hmap, ?_⟩
    have hrev : r.revoked_at.isNone = true :=
      (Bool.and_eq_true ..|>.mp hact).1
    simp [revokeIfMine, heq, hrev, recordActive]

/-- C6 (witness): in a store with one record each for users 7 and 8, the
theorem applied to user 7's record at position 0. -/
theorem logout_all_complete_witness :
    (recA7.user_id ≠ 7 →
      (revoke_all_user_tokens store67 7 50)[0]? = some recA7) ∧
    (recA7.user_id = 7 → ∀ t0, recordActive recA7 t0 = true →
      ∃ r1, (revoke_all_user_tokens store67 7 50)[0]? = some r1 ∧
        recordActive r1 t0 = false) :=
  logout_all_complete store67 7 50 0 recA7 (by rfl)

/-- C7: `decode_token` verifies exclusively with RS256: a token whose header
declares "none" or any other algorithm fails with the invalid-token 401 and
never yields claims. -/
theorem decode_rejects_non_rs256 (cfg : AuthConfig) (tok : Token) (now : Nat)
    (h : tok.alg ≠ "RS256") :
    decode_token cfg tok now = .error .invalid := by
  simp [decode_token, jwtDecode, h]

/-- C7 (witness): a token declaring the unsigned "none" algorithm is
rejected. -/
theorem decode_rejects_non_rs256_witness :
    tokAlgNone.alg = "none" ∧
    decode_token cfg0 tokAlgNone 5 = .error .invalid :=
  ⟨rfl, decode_rejects_non_rs256 cfg0 tokAlgNone 5 (by decide)⟩

/-- C8: `validate_typ` fails with the wrong-purpose 401 exactly when the
`typ` claim differs from the expected value or is absent; in particular an
encoded access token always fails the "refresh" check and an encoded refresh
token always fails the "access" check. -/
theorem purpose_isolation (c : Claims) (e : String) (cfg : AuthConfig)
    (uid : Int) (j : String) (now : Nat) :
    (validate_typ c e = .error (.wrongPurpose e) ↔ c.typ ≠ some e) ∧
    (validate_typ c e = .ok () ↔ c.typ = some e) ∧
    validate_typ (encode_access_token cfg uid j now).payload "refresh"
      = .error (.wrongPurpose "refresh") ∧
    validate_typ (encode_refresh_token cfg uid j now).payload "access"
      = .error (.wrongPurpose "access") := by
  refine ⟨?_, ?_, ?_, ?_⟩
  · by_cases h : c.typ = some e <;> simp [validate_typ, h]
  · by_cases h : c.typ = some e <;> simp [validate_typ, h]
  · simp [validate_typ, encode_access_token]
  · simp [validate_typ, encode_refresh_token]

/-- C10: revocation is monotone: every store operation (`create`,
`revoke_by_jti`, `revoke_all_for_user`, `rotate`) leaves a record whose
`revoked_at` is already set exactly in place, timestamp included. -/
theorem revocation_monotone (s : Store) (i : Nat) (r : RefreshToken)
    (ts : Nat) (hr : s[i]? = some r) (hrev : r.revoked_at = some ts) :
    (∀ uid j ia ea rf ua ip,
      ((create s uid j ia ea rf ua ip).1)[i]? = some r) ∧
    (∀ j now, ((revoke_by_jti s j now).1)[i]? = some r) ∧
    (∀ uid now, ((revoke_all_for_user s uid now).1)[i]? = some r) ∧
    (∀ oj nj uid ia ea ua ip now s1 nt,
      rotate s oj nj uid ia ea ua ip now = some (s1, nt) →
      s1[i]? = some r) := by
  have hlen : i < s.length := by
    rcases List.getElem?_eq_some.mp hr with ⟨h, _⟩
    exact h
  refine ⟨?_, ?_, ?_, ?_⟩
  · intro uid j ia ea rf ua ip
    simp [create, List.getElem?_append, hlen, hr]
  · intro j now
    exact revoke_by_jti_preserves s j now i r hr ts hrev
  · intro uid now
    rw [revoke_all_eq_map]
    rw [List.getElem?_map _ s i, hr]
    simp [revokeIfMine, hrev]
  · intro oj nj uid ia ea ua ip now s1 nt h
    cases hg : get_by_jti s oj with
    | none => simp [rotate, hg] at h
    | some t =>
      simp only [rotate, hg] at h
      obtain ⟨hs1, hnt⟩ := Prod.mk.injEq .. ▸ Option.some.injEq .. ▸ h
      rw [← hs1]
      have hlen2 : i < (revokeOldIfUnrevoked s oj now).length := by
        rw [revokeOld_length]; exact hlen
      rw [List.getElem?_append]
      simp only [hlen2, if_true]
      exact revokeOld_preserves s oj now i r hr ts hrev

/-- C10 (witness): the theorem applied to the already-revoked record
`recRevoked` at position 0 of a one-record store. -/
theorem revocation_monotone_witness :
    (∀ uid j ia ea rf ua ip,
      ((create [recRevoked] uid j ia ea rf ua ip).1)[0]? = some recRevoked) ∧
    (∀ j now,
      ((revoke_by_jti [recRevoked] j now).1)[0]? = some recRevoked) ∧
    (∀ uid now,
      ((revoke_all_for_user [recRevoked] uid now).1)[0]? = some recRevoked) ∧
    (∀ oj nj uid ia ea ua ip now s1 nt,
      rotate [recRevoked] oj nj uid ia ea ua ip now = some (s1, nt) →
      s1[0]? = some recRevoked) :=
  revocation_monotone [recRevoked] 0 recRevoked 50 (by rfl) (by rfl)

/-- C1: replay rejection: once the store has rotated `oj` away (so its
record is revoked), any later `rotate_tokens` call presenting a well-signed,
unexpired refresh token carrying `jti = oj` fails with the not-active
authentication error — in particular it returns no new token pair. -/
theorem replay_rejected (cfg : AuthConfig) (s s1 : Store)
    (oj njr : String) (uidr : Int) (ia ea : Nat) (ua ip : Option String)
    (now : Nat) (nt : RefreshToken)
    (hrot : rotate s oj njr uidr ia ea ua ip now = some (s1, nt))
    (tok : Token) (now2 : Nat) (nj aj : String) (ua2 ip2 : Option String)
    (sb : String) (u2 : Int)
    (halg : tok.alg = "RS256") (hkey : tok.key = cfg.key)
    (hexp : now2 < tok.payload.exp)
    (htyp : tok.payload.typ = some "refresh")
    (hjti : tok.payload.jti = some oj) (hoj : oj ≠ "")
    (hsub : tok.payload.sub = some sb) (hsb : sb ≠ "")
    (hparse : pyInt sb = some u2) :
    rotate_tokens cfg s1 tok now2 nj aj ua2 ip2 = .error .notActive := by
  have hdec : decode_token cfg tok now2 = .ok tok.payload := by
    simp [decode_token, jwtDecode, halg, hkey, Nat.not_le.mpr hexp]
  have hv : validate_typ tok.payload "refresh" = .ok () := by
    simp [validate_typ, htyp]
  have hact : is_active s1 oj now2 = false :=
    rotate_old_inactive s s1 oj njr uidr ia ea ua ip now nt hrot now2
  simp only [rotate_tokens, hdec, hv, hsub, hjti, hparse, hact]
  simp [hsb, hoj]

/-- C1 (witness): the original refresh token `tok0` of record `rec0`,
presented after `store0` was rotated into `store1`. -/
theorem replay_rejected_witness :
    rotate_tokens cfg0 store1 tok0 200 "n2" "a2" none none =
      .error .notActive :=
  replay_rejected cfg0 store0 store1 "old" "new" 7 100 605000 none none 100
    newrec (by rfl) tok0 200 "n2" "a2" none none "7" 7 (by rfl) (by rfl)
    (by decide) (by rfl) (by rfl) (by decide) (by rfl) (by decide) (by rfl)

/-- C3: rotation postcondition: when `rotate` returns successfully on a state
holding the old record, with a new `jti` not yet in the store, the old token
is inactive and the new token is active at every instant before its expiry
(in this model `rotate` is a single atomic transition, so no intermediate
state exists). -/
theorem rotation_postcondition (s s1 : Store) (oj nj : String) (uid : Int)
    (ia ea : Nat) (ua ip : Option String) (now : Nat) (nt : RefreshToken)
    (hrot : rotate s oj nj uid ia ea ua ip now = some (s1, nt))
    (hfresh : get_by_jti s nj = none) (t0 : Nat) (ht : t0 < ea) :
    is_active s1 oj t0 = false ∧ is_active s1 nj t0 = true :=
  ⟨rotate_old_inactive s s1 oj nj uid ia ea ua ip now nt hrot t0,
   rotate_new_active s s1 oj nj uid ia ea ua ip now nt hrot hfresh t0 ht⟩

/-- C3 (witness): rotating `store0`'s record "old" into "new" at time 100
and observing at time 200. -/
theorem rotation_postcondition_witness :
    is_active store1 "old" 200 = false ∧ is_active store1 "new" 200 = true :=
  rotation_postcondition store0 store1 "old" "new" 7 100 605000 none none 100
    newrec (by rfl) (by rfl) 200 (by decide)

/-- C5 (counterexample): logout with an already-expired refresh token raises
the expired 401 on the first call and again on the second call, contradicting
the claim that it never raises beyond the first call. -/
theorem logout_expired_raises_again :
    revoke_refresh_token cfg0 [] tokExpired 20 = .error .expired ∧
    revoke_refresh_token cfg0 [] tokExpired 30 = .error .expired :=
  ⟨rfl, rfl⟩

/-- C5 (amended): for a well-signed refresh token that is unexpired at both
call times, calling logout twice never raises (whether or not the store holds
a record for its `jti` — an absent record is tolerated), and after each call
the token's `jti` is inactive at every instant. -/
theorem logout_idempotent (cfg : AuthConfig) (s : Store) (tok : Token)
    (now1 now2 : Nat) (j : String)
    (halg : tok.alg = "RS256") (hkey : tok.key = cfg.key)
    (h1 : now1 < tok.payload.exp) (h2 : now2 < tok.payload.exp)
    (htyp : tok.payload.typ = some "refresh")
    (hjti : tok.payload.jti = some j) (hj : j ≠ "") :
    revoke_refresh_token cfg s tok now1 = .ok (revoke_by_jti s j now1).1 ∧
    revoke_refresh_token cfg (revoke_by_jti s j now1).1 tok now2 =
      .ok (revoke_by_jti (revoke_by_jti s j now1).1 j now2).1 ∧
    (∀ t0, is_active (revoke_by_jti s j now1).1 j t0 = false) ∧
    (∀ t0, is_active
      (revoke_by_jti (revoke_by_jti s j now1).1 j now2).1 j t0 = false) := by
  have hdec1 : decode_token cfg tok now1 = .ok tok.payload := by
    simp [decode_token, jwtDecode, halg, hkey, Nat.not_le.mpr h1]
  have hdec2 : decode_token cfg tok now2 = .ok tok.payload := by
    simp [decode_token, jwtDecode, halg, hkey, Nat.not_le.mpr h2]
  have hv : validate_typ tok.payload "refresh" = .ok () := by
    simp [validate_typ, htyp]
  refine ⟨?_, ?_, ?_, ?_⟩
  · simp only [revoke_refresh_token, hdec1, hv, hjti]
    simp [hj]
  · simp only [revoke_refresh_token, hdec2, hv, hjti]
    simp [hj]
  · intro t0
    exact is_active_eq_false _ _ _ (get_revoke_by_jti_self s j now1)
  · intro t0
    exact is_active_eq_false _ _ _ (get_revoke_by_jti_self _ j now2)

/-- C5 (witness): logging out twice with `tok0` (unexpired at times 150 and
160) against `store0`. -/
theorem logout_idempotent_witness :
    revoke_refresh_token cfg0 store0 tok0 150 =
      .ok (revoke_by_jti store0 "old" 150).1 ∧
    revoke_refresh_token cfg0 (revoke_by_jti store0 "old" 150).1 tok0 160 =
      .ok (revoke_by_jti (revoke_by_jti store0 "old" 150).1 "old" 160).1 ∧
    (∀ t0, is_active (revoke_by_jti store0 "old" 150).1 "old" t0 = false) ∧
    (∀ t0, is_active
      (revoke_by_jti (revoke_by_jti store0 "old" 150).1 "old" 160).1
      "old" t0 = false) :=
  logout_idempotent cfg0 store0 tok0 150 160 "old" (by rfl) (by rfl)
    (by decide) (by decide) (by rfl) (by rfl) (by decide)

/-- C9: login/encode–decode round trip: decoding the access token returned
by the login path succeeds within the access TTL and yields claims with
`sub` the string form of the subject and `typ = "access"`. -/
theorem login_roundtrip (cfg : AuthConfig) (s : Store) (uid : Int)
    (now : Nat) (rj aj : String) (ua ip : Option String) (t0 : Nat)
    (halg : cfg.algorithm = "RS256")
    (ht : t0 < now + cfg.access_minutes * 60) :
    ∃ c : Claims,
      decode_token cfg
        (create_tokens_for_user cfg s uid now rj aj ua ip).2.1 t0 = .ok c ∧
      c.sub = some (toString uid) ∧ c.typ = some "access" := by
  refine ⟨(encode_access_token cfg uid aj now).payload, ?_, rfl, rfl⟩
  simp [create_tokens_for_user, decode_token, jwtDecode, encode_access_token,
    halg, Nat.not_le.mpr ht]

/-- C9 (witness): subject 42, decoded 100 seconds after login with the
default 15-minute access TTL. -/
theorem login_roundtrip_witness :
    ∃ c : Claims,
      decode_token cfg0
        (create_tokens_for_user cfg0 [] 42 0 "rj" "aj" none none).2.1 100 =
        .ok c ∧
      c.sub = some (toString (42 : Int)) ∧ c.typ = some "access" :=
  login_roundtrip cfg0 [] 42 0 "rj" "aj" none none 100 (by rfl) (by decide)

end Mikoblog
